import Mathlib

set_option linter.unnecessarySeqFocus false

/-!
Verification of the Rust VFS shim (rust/kernel/fs) against its
natural-language specification.  The Rust sources under rust/kernel/fs are
shallowly embedded: raw pointers become natural-number addresses with 0 as
null, fallible operations return an Except value, trait objects become
structures of functions with the default method bodies as default fields,
and the C operation tables become records whose slots are either the absent
marker (none) or the name of the installed trampoline.
-/

namespace LinuxFs

/-- Raw pointers are modelled as natural-number addresses; 0 is the null pointer. -/
abbrev Ptr := Nat

/-- Modelled from the spec: the structured error type of the framework
(rust/kernel/error.rs is not under src/; only its callers are).  It wraps one
host integer code in negative-errno style. -/
structure Error where
  code : Int
deriving DecidableEq

/-- The InvalidArgument error, host code -22. -/
def Error.EINVAL : Error := ⟨-22⟩

/-- Recover the host integer code carried by an error. -/
def Error.to_kernel_errno (e : Error) : Int := e.code

/-- Modelled from the spec: build an error from a host code; a host code
outside the negative-errno range collapses to the well-defined
InvalidArgument error (rust/kernel/error.rs is not under src/). -/
def Error.from_kernel_errno (n : Int) : Error :=
  if n < 0 ∧ -4096 < n then ⟨n⟩ else Error.EINVAL

/-- Result type of fallible operations, mirroring kernel::Result. -/
abbrev Result (α : Type) := Except Error α

/-- True exactly when a wrap (or any fallible step) succeeded; mirrors the
early-return guards of the trampolines. -/
def wrap_succeeded {α : Type} : Result α → Bool
  | .ok _ => true
  | .error _ => false

/-- Modelled view of a borrowed C string (rust/kernel/str.rs is not under
src/): either the empty literal that the trampolines substitute for a null
pointer, or an unchecked view of a host pointer. -/
inductive CStr
  | empty
  | fromPtr (p : Ptr)
deriving DecidableEq

/-- A non-owning inode handle wrapping one raw host pointer (fs/inode.rs). -/
structure Inode where
  c_inode : Ptr
deriving DecidableEq

def Inode.default : Inode := ⟨0⟩

/-- Wrap a raw inode pointer; a null pointer is rejected with EINVAL. -/
def Inode.from_c_inode (p : Ptr) : Result Inode :=
  if p = 0 then .error Error.EINVAL else .ok ⟨p⟩

def Inode.to_c_inode (i : Inode) : Ptr := i.c_inode

/-- A non-owning dentry handle wrapping one raw host pointer (fs/dentry.rs). -/
structure Dentry where
  c_dentry : Ptr
deriving DecidableEq

def Dentry.default : Dentry := ⟨0⟩

/-- Wrap a raw dentry pointer; a null pointer is rejected with EINVAL. -/
def Dentry.from_c_dentry (p : Ptr) : Result Dentry :=
  if p = 0 then .error Error.EINVAL else .ok ⟨p⟩

def Dentry.to_c_dentry (d : Dentry) : Ptr := d.c_dentry

/-- A non-owning superblock handle (fs/super_block.rs). -/
structure SuperBlock where
  c_sb : Ptr
deriving DecidableEq

def SuperBlock.default : SuperBlock := ⟨0⟩

/-- Wrap a raw superblock pointer; a null pointer is rejected with EINVAL. -/
def SuperBlock.from_c_super_block (p : Ptr) : Result SuperBlock :=
  if p = 0 then .error Error.EINVAL else .ok ⟨p⟩

def SuperBlock.to_c_super_block (s : SuperBlock) : Ptr := s.c_sb

/-- A non-owning seq-file handle (fs/seq_file.rs). -/
structure SeqFile where
  c_seq_file : Ptr
deriving DecidableEq

def SeqFile.default : SeqFile := ⟨0⟩

/-- Wrap a raw seq_file pointer; a null pointer is rejected with EINVAL. -/
def SeqFile.from_c_seq_file (p : Ptr) : Result SeqFile :=
  if p = 0 then .error Error.EINVAL else .ok ⟨p⟩

def SeqFile.to_c_seq_file (s : SeqFile) : Ptr := s.c_seq_file

/-- A non-owning kstatfs handle (fs/kstatfs.rs). -/
structure KStatFs where
  c_kstatfs : Ptr
deriving DecidableEq

def KStatFs.default : KStatFs := ⟨0⟩

/-- Wrap a raw kstatfs pointer; a null pointer is rejected with EINVAL. -/
def KStatFs.from_c_kstatfs (p : Ptr) : Result KStatFs :=
  if p = 0 then .error Error.EINVAL else .ok ⟨p⟩

def KStatFs.to_c_kstatfs (k : KStatFs) : Ptr := k.c_kstatfs

/-- A non-owning user-namespace handle (fs/user_ns.rs). -/
structure UserNameSpace where
  c_user_ns : Ptr
deriving DecidableEq

def UserNameSpace.default : UserNameSpace := ⟨0⟩

/-- Wrap a raw user_namespace pointer; a null pointer is rejected with EINVAL. -/
def UserNameSpace.from_c_user_namespace (p : Ptr) : Result UserNameSpace :=
  if p = 0 then .error Error.EINVAL else .ok ⟨p⟩

def UserNameSpace.to_c_user_namespace (u : UserNameSpace) : Ptr := u.c_user_ns

/-- A non-owning filesystem-type handle (fs/mod.rs, struct FSType). -/
structure FSType where
  c_fs_type : Ptr
deriving DecidableEq

def FSType.default : FSType := ⟨0⟩

/-- Wrap a raw file_system_type pointer; a null pointer is rejected with EINVAL. -/
def FSType.from_c_fs_type (p : Ptr) : Result FSType :=
  if p = 0 then .error Error.EINVAL else .ok ⟨p⟩

def FSType.to_c_fs_type (f : FSType) : Ptr := f.c_fs_type

/-- Mode bits, umode_t (fs/types.rs). -/
abbrev UMode := Nat

/-- Device number, dev_t (fs/types.rs). -/
abbrev DevType := Nat

/-- The iattr record that setattr dereferences; its contents are abstracted
by the address it was copied from (fs/types.rs, bindings::iattr). -/
structure IAttr where
  addr : Ptr
deriving DecidableEq

/-- The path record that getattr dereferences, abstracted by its address. -/
structure Path where
  addr : Ptr
deriving DecidableEq

/-- The kstat record that getattr dereferences, abstracted by its address. -/
structure KStat where
  addr : Ptr
deriving DecidableEq

/-- Identity of an installed trampoline; an operation-table slot is either
none (the absent marker, a null function pointer) or some trampoline name. -/
inductive CFn
  | destroy_inode_cb
  | free_inode_cb
  | drop_inode_cb
  | evict_inode_cb
  | statfs_cb
  | show_options_cb
  | d_delete_cb
  | mount_cb
  | kill_sb_cb
deriving DecidableEq

namespace inode

/-- Capability set for inode operations (fs/inode.rs, struct ToUse). -/
structure ToUse where
  lookup : Bool
  get_link : Bool
  permission : Bool
  get_acl : Bool
  readlink : Bool
  create : Bool
  link : Bool
  unlink : Bool
  symlink : Bool
  mkdir : Bool
  rmdir : Bool
  mknod : Bool
  rename : Bool
  setattr : Bool
  getattr : Bool
  listxattr : Bool
  fiemap : Bool
  update_time : Bool
  atomic_open : Bool
  tmpfile : Bool
  set_acl : Bool
  fileattr_set : Bool
  fileattr_get : Bool
deriving DecidableEq

/-- The all-false capability set (fs/inode.rs, USE_NONE). -/
def USE_NONE : ToUse :=
  ⟨false, false, false, false, false, false, false, false, false, false, false,
   false, false, false, false, false, false, false, false, false, false, false,
   false⟩

/-- Plugin-facing inode operations trait (fs/inode.rs, trait
InodeOperations); unoverridden methods keep the default bodies, which all
return Err(EINVAL). -/
structure InodeOperations where
  lookup : Inode → Dentry → Nat → Result Dentry := fun _ _ _ => .error Error.EINVAL
  create : UserNameSpace → Inode → Dentry → UMode → Bool → Result Unit :=
    fun _ _ _ _ _ => .error Error.EINVAL
  link : Dentry → Inode → Dentry → Result Unit := fun _ _ _ => .error Error.EINVAL
  unlink : Inode → Dentry → Result Unit := fun _ _ => .error Error.EINVAL
  symlink : UserNameSpace → Inode → Dentry → CStr → Result Unit :=
    fun _ _ _ _ => .error Error.EINVAL
  mkdir : UserNameSpace → Inode → Dentry → UMode → Result Unit :=
    fun _ _ _ _ => .error Error.EINVAL
  rmdir : Inode → Dentry → Result Unit := fun _ _ => .error Error.EINVAL
  mknod : UserNameSpace → Inode → Dentry → UMode → DevType → Result Unit :=
    fun _ _ _ _ _ => .error Error.EINVAL
  rename : UserNameSpace → Inode → Dentry → Inode → Dentry → Nat → Result Unit :=
    fun _ _ _ _ _ _ => .error Error.EINVAL
  setattr : UserNameSpace → Dentry → IAttr → Result Unit :=
    fun _ _ _ => .error Error.EINVAL
  getattr : UserNameSpace → Path → KStat → Nat → Nat → Result Unit :=
    fun _ _ _ _ _ => .error Error.EINVAL

end inode

namespace super_block

/-- Capability set for superblock operations (fs/super_block.rs, struct ToUse). -/
structure ToUse where
  destroy_inode : Bool
  free_inode : Bool
  drop_inode : Bool
  evict_inode : Bool
  statfs : Bool
  show_options : Bool
deriving DecidableEq

/-- The all-false capability set (fs/super_block.rs, USE_NONE). -/
def USE_NONE : ToUse := ⟨false, false, false, false, false, false⟩

/-- Plugin-facing superblock operations trait (fs/super_block.rs, trait
SuperBlockOperations) with the source default method bodies. -/
structure SuperBlockOperations where
  TO_USE : ToUse
  destroy_inode : Inode → Unit := fun _ => ()
  free_inode : Inode → Unit := fun _ => ()
  drop_inode : Inode → Bool := fun _ => true
  evict_inode : Inode → Unit := fun _ => ()
  statfs : Dentry → KStatFs → Result Unit := fun _ _ => .error Error.EINVAL
  show_options : SeqFile → Dentry → Result Unit := fun _ _ => .error Error.EINVAL

end super_block

namespace dentry

/-- Capability set for dentry operations (fs/dentry.rs, struct ToUse). -/
structure ToUse where
  d_revalidate : Bool
  d_weak_revalidate : Bool
  d_hash : Bool
  d_compare : Bool
  d_delete : Bool
  d_init : Bool
  d_release : Bool
  d_prune : Bool
  d_iput : Bool
  d_dname : Bool
  d_automount : Bool
  d_manage : Bool
  d_real : Bool
deriving DecidableEq

/-- The all-false capability set (fs/dentry.rs, USE_NONE). -/
def USE_NONE : ToUse :=
  ⟨false, false, false, false, false, false, false, false, false, false, false,
   false, false⟩

/-- Plugin-facing dentry operations trait (fs/dentry.rs, trait
DentryOperations); the default d_delete returns false, meaning cache the
dentry. -/
structure DentryOperations where
  TO_USE : ToUse
  d_delete : Dentry → Bool := fun _ => false

end dentry

/-- The fixed-layout inode operation table of the host ABI
(bindings::inode_operations), one slot per possible operation. -/
structure inode_operations where
  lookup : Option CFn
  get_link : Option CFn
  permission : Option CFn
  get_acl : Option CFn
  readlink : Option CFn
  create : Option CFn
  link : Option CFn
  unlink : Option CFn
  symlink : Option CFn
  mkdir : Option CFn
  rmdir : Option CFn
  mknod : Option CFn
  rename : Option CFn
  setattr : Option CFn
  getattr : Option CFn
  listxattr : Option CFn
  fiemap : Option CFn
  update_time : Option CFn
  atomic_open : Option CFn
  tmpfile : Option CFn
  set_acl : Option CFn
  fileattr_set : Option CFn
  fileattr_get : Option CFn
deriving DecidableEq

/-- The fixed-layout superblock operation table of the host ABI
(bindings::super_operations). -/
structure super_operations where
  alloc_inode : Option CFn
  destroy_inode : Option CFn
  free_inode : Option CFn
  dirty_inode : Option CFn
  write_inode : Option CFn
  drop_inode : Option CFn
  evict_inode : Option CFn
  put_super : Option CFn
  sync_fs : Option CFn
  freeze_super : Option CFn
  freeze_fs : Option CFn
  thaw_super : Option CFn
  unfreeze_fs : Option CFn
  statfs : Option CFn
  remount_fs : Option CFn
  umount_begin : Option CFn
  show_options : Option CFn
  show_devname : Option CFn
  show_path : Option CFn
  show_stats : Option CFn
  quota_read : Option CFn
  quota_write : Option CFn
  get_dquots : Option CFn
  nr_cached_objects : Option CFn
  free_cached_objects : Option CFn
deriving DecidableEq

/-- The fixed-layout dentry operation table of the host ABI
(bindings::dentry_operations). -/
structure dentry_operations where
  d_revalidate : Option CFn
  d_weak_revalidate : Option CFn
  d_hash : Option CFn
  d_compare : Option CFn
  d_delete : Option CFn
  d_init : Option CFn
  d_release : Option CFn
  d_prune : Option CFn
  d_iput : Option CFn
  d_dname : Option CFn
  d_automount : Option CFn
  d_manage : Option CFn
  d_real : Option CFn
deriving DecidableEq

/-- The inode operation table built for a plugin (fs/inode.rs,
InodeOperationsVtable).  The source const VTABLE sets every slot to None and
never consults any capability set, so the built table is all-null for every
plugin. -/
def InodeOperationsVtable (_T : inode.InodeOperations) : inode_operations :=
  { lookup := none
    get_link := none
    permission := none
    get_acl := none
    readlink := none
    create := none
    link := none
    unlink := none
    symlink := none
    mkdir := none
    rmdir := none
    mknod := none
    rename := none
    setattr := none
    getattr := none
    listxattr := none
    fiemap := none
    update_time := none
    atomic_open := none
    tmpfile := none
    set_acl := none
    fileattr_set := none
    fileattr_get := none }

/-- The superblock operation table built for a plugin (fs/super_block.rs,
SuperBlockOperationsVtable): a trampoline is installed exactly in the slots
whose TO_USE flag is set; every other slot holds the absent marker. -/
def SuperBlockOperationsVtable (T : super_block.SuperBlockOperations) :
    super_operations :=
  { alloc_inode := none
    destroy_inode := if T.TO_USE.destroy_inode then some .destroy_inode_cb else none
    free_inode := if T.TO_USE.free_inode then some .free_inode_cb else none
    dirty_inode := none
    write_inode := none
    drop_inode := if T.TO_USE.drop_inode then some .drop_inode_cb else none
    evict_inode := if T.TO_USE.evict_inode then some .evict_inode_cb else none
    put_super := none
    sync_fs := none
    freeze_super := none
    freeze_fs := none
    thaw_super := none
    unfreeze_fs := none
    statfs := if T.TO_USE.statfs then some .statfs_cb else none
    remount_fs := none
    umount_begin := none
    show_options := if T.TO_USE.show_options then some .show_options_cb else none
    show_devname := none
    show_path := none
    show_stats := none
    quota_read := none
    quota_write := none
    get_dquots := none
    nr_cached_objects := none
    free_cached_objects := none }

/-- The dentry operation table built for a plugin (fs/dentry.rs,
DentryOperationsVtable): the d_delete trampoline is installed exactly when
selected; every other slot holds the absent marker. -/
def DentryOperationsVtable (T : dentry.DentryOperations) : dentry_operations :=
  { d_revalidate := none
    d_weak_revalidate := none
    d_hash := none
    d_compare := none
    d_delete := if T.TO_USE.d_delete then some .d_delete_cb else none
    d_init := none
    d_release := none
    d_prune := none
    d_iput := none
    d_dname := none
    d_automount := none
    d_manage := none
    d_real := none }

/-- Host-side integer outcome of a fallible plugin call: the success
sentinel 0, or the host code obtained from the structured error. -/
def hostResult (r : Result Unit) : Int :=
  match r with
  | .ok _ => 0
  | .error e => e.to_kernel_errno

/-- Host-side outcome of a dentry-returning plugin call: the raw dentry
pointer on success, or the host error code cast to a pointer. -/
def hostPtrResult (r : Result Dentry) : Int :=
  match r with
  | .ok d => (d.to_c_dentry : Int)
  | .error e => e.to_kernel_errno

/-- Rust bool cast to a C integer: true is 1, false is 0. -/
def bool_to_cint (b : Bool) : Int := if b then 1 else 0

namespace inode

/-- Trampoline for the lookup slot (fs/inode.rs, fn lookup). -/
def lookup (T : InodeOperations) (c_inode c_dentry : Ptr) (flags : Nat) : Int :=
  match Inode.from_c_inode c_inode with
  | .error e => e.to_kernel_errno
  | .ok i =>
    match Dentry.from_c_dentry c_dentry with
    | .error e => e.to_kernel_errno
    | .ok d =>
      match T.lookup i d flags with
      | .error e => e.to_kernel_errno
      | .ok r => (r.to_c_dentry : Int)

/-- True exactly when fn lookup reaches the plugin call. -/
def lookup_invoked (c_inode c_dentry : Ptr) : Bool :=
  wrap_succeeded (Inode.from_c_inode c_inode) &&
    wrap_succeeded (Dentry.from_c_dentry c_dentry)

/-- Trampoline for the create slot (fs/inode.rs, fn create). -/
def create (T : InodeOperations) (c_user_ns c_inode c_dentry : Ptr)
    (c_mode : UMode) (c_excl : Bool) : Int :=
  match UserNameSpace.from_c_user_namespace c_user_ns with
  | .error e => e.to_kernel_errno
  | .ok u =>
    match Inode.from_c_inode c_inode with
    | .error e => e.to_kernel_errno
    | .ok i =>
      match Dentry.from_c_dentry c_dentry with
      | .error e => e.to_kernel_errno
      | .ok d =>
        match T.create u i d c_mode c_excl with
        | .error e => e.to_kernel_errno
        | .ok _ => 0

/-- True exactly when fn create reaches the plugin call. -/
def create_invoked (c_user_ns c_inode c_dentry : Ptr) : Bool :=
  wrap_succeeded (UserNameSpace.from_c_user_namespace c_user_ns) &&
    wrap_succeeded (Inode.from_c_inode c_inode) &&
    wrap_succeeded (Dentry.from_c_dentry c_dentry)

/-- Trampoline for the link slot (fs/inode.rs, fn link). -/
def link (T : InodeOperations) (c_old_dentry c_dir c_dentry : Ptr) : Int :=
  match Dentry.from_c_dentry c_old_dentry with
  | .error e => e.to_kernel_errno
  | .ok old =>
    match Inode.from_c_inode c_dir with
    | .error e => e.to_kernel_errno
    | .ok dir =>
      match Dentry.from_c_dentry c_dentry with
      | .error e => e.to_kernel_errno
      | .ok d =>
        match T.link old dir d with
        | .error e => e.to_kernel_errno
        | .ok _ => 0

/-- True exactly when fn link reaches the plugin call. -/
def link_invoked (c_old_dentry c_dir c_dentry : Ptr) : Bool :=
  wrap_succeeded (Dentry.from_c_dentry c_old_dentry) &&
    wrap_succeeded (Inode.from_c_inode c_dir) &&
    wrap_succeeded (Dentry.from_c_dentry c_dentry)

/-- Trampoline for the unlink slot (fs/inode.rs, fn unlink). -/
def unlink (T : InodeOperations) (c_inode c_dentry : Ptr) : Int :=
  match Inode.from_c_inode c_inode with
  | .error e => e.to_kernel_errno
  | .ok i =>
    match Dentry.from_c_dentry c_dentry with
    | .error e => e.to_kernel_errno
    | .ok d =>
      match T.unlink i d with
      | .error e => e.to_kernel_errno
      | .ok _ => 0

/-- True exactly when fn unlink reaches the plugin call. -/
def unlink_invoked (c_inode c_dentry : Ptr) : Bool :=
  wrap_succeeded (Inode.from_c_inode c_inode) &&
    wrap_succeeded (Dentry.from_c_dentry c_dentry)

/-- Trampoline for the symlink slot (fs/inode.rs, fn symlink); the symname
C string is passed through unchecked, with no null test. -/
def symlink (T : InodeOperations) (c_user_ns c_inode c_dentry : Ptr)
    (c_symname : Ptr) : Int :=
  match UserNameSpace.from_c_user_namespace c_user_ns with
  | .error e => e.to_kernel_errno
  | .ok u =>
    match Inode.from_c_inode c_inode with
    | .error e => e.to_kernel_errno
    | .ok i =>
      match Dentry.from_c_dentry c_dentry with
      | .error e => e.to_kernel_errno
      | .ok d =>
        match T.symlink u i d (CStr.fromPtr c_symname) with
        | .error e => e.to_kernel_errno
        | .ok _ => 0

/-- True exactly when fn symlink reaches the plugin call. -/
def symlink_invoked (c_user_ns c_inode c_dentry : Ptr) : Bool :=
  wrap_succeeded (UserNameSpace.from_c_user_namespace c_user_ns) &&
    wrap_succeeded (Inode.from_c_inode c_inode) &&
    wrap_succeeded (Dentry.from_c_dentry c_dentry)

/-- Trampoline for the mkdir slot (fs/inode.rs, fn mkdir). -/
def mkdir (T : InodeOperations) (c_user_ns c_inode c_dentry : Ptr)
    (c_mode : UMode) : Int :=
  match UserNameSpace.from_c_user_namespace c_user_ns with
  | .error e => e.to_kernel_errno
  | .ok u =>
    match Inode.from_c_inode c_inode with
    | .error e => e.to_kernel_errno
    | .ok i =>
      match Dentry.from_c_dentry c_dentry with
      | .error e => e.to_kernel_errno
      | .ok d =>
        match T.mkdir u i d c_mode with
        | .error e => e.to_kernel_errno
        | .ok _ => 0

/-- True exactly when fn mkdir reaches the plugin call. -/
def mkdir_invoked (c_user_ns c_inode c_dentry : Ptr) : Bool :=
  wrap_succeeded (UserNameSpace.from_c_user_namespace c_user_ns) &&
    wrap_succeeded (Inode.from_c_inode c_inode) &&
    wrap_succeeded (Dentry.from_c_dentry c_dentry)

/-- Trampoline for the rmdir slot (fs/inode.rs, fn rmdir). -/
def rmdir (T : InodeOperations) (c_inode c_dentry : Ptr) : Int :=
  match Inode.from_c_inode c_inode with
  | .error e => e.to_kernel_errno
  | .ok i =>
    match Dentry.from_c_dentry c_dentry with
    | .error e => e.to_kernel_errno
    | .ok d =>
      match T.rmdir i d with
      | .error e => e.to_kernel_errno
      | .ok _ => 0

/-- True exactly when fn rmdir reaches the plugin call. -/
def rmdir_invoked (c_inode c_dentry : Ptr) : Bool :=
  wrap_succeeded (Inode.from_c_inode c_inode) &&
    wrap_succeeded (Dentry.from_c_dentry c_dentry)

/-- Trampoline for the mknod slot (fs/inode.rs, fn mknod). -/
def mknod (T : InodeOperations) (c_user_ns c_inode c_dentry : Ptr)
    (c_mode : UMode) (c_rdev : DevType) : Int :=
  match UserNameSpace.from_c_user_namespace c_user_ns with
  | .error e => e.to_kernel_errno
  | .ok u =>
    match Inode.from_c_inode c_inode with
    | .error e => e.to_kernel_errno
    | .ok i =>
      match Dentry.from_c_dentry c_dentry with
      | .error e => e.to_kernel_errno
      | .ok d =>
        match T.mknod u i d c_mode c_rdev with
        | .error e => e.to_kernel_errno
        | .ok _ => 0

/-- True exactly when fn mknod reaches the plugin call. -/
def mknod_invoked (c_user_ns c_inode c_dentry : Ptr) : Bool :=
  wrap_succeeded (UserNameSpace.from_c_user_namespace c_user_ns) &&
    wrap_succeeded (Inode.from_c_inode c_inode) &&
    wrap_succeeded (Dentry.from_c_dentry c_dentry)

/-- Trampoline for the rename slot (fs/inode.rs, fn rename). -/
def rename (T : InodeOperations)
    (c_user_ns c_old_dir c_old_dentry c_new_dir c_new_dentry : Ptr)
    (c_flags : Nat) : Int :=
  match UserNameSpace.from_c_user_namespace c_user_ns with
  | .error e => e.to_kernel_errno
  | .ok u =>
    match Inode.from_c_inode c_old_dir with
    | .error e => e.to_kernel_errno
    | .ok od =>
      match Dentry.from_c_dentry c_old_dentry with
      | .error e => e.to_kernel_errno
      | .ok ode =>
        match Inode.from_c_inode c_new_dir with
        | .error e => e.to_kernel_errno
        | .ok nd =>
          match Dentry.from_c_dentry c_new_dentry with
          | .error e => e.to_kernel_errno
          | .ok nde =>
            match T.rename u od ode nd nde c_flags with
            | .error e => e.to_kernel_errno
            | .ok _ => 0

/-- True exactly when fn rename reaches the plugin call. -/
def rename_invoked
    (c_user_ns c_old_dir c_old_dentry c_new_dir c_new_dentry : Ptr) : Bool :=
  wrap_succeeded (UserNameSpace.from_c_user_namespace c_user_ns) &&
    wrap_succeeded (Inode.from_c_inode c_old_dir) &&
    wrap_succeeded (Dentry.from_c_dentry c_old_dentry) &&
    wrap_succeeded (Inode.from_c_inode c_new_dir) &&
    wrap_succeeded (Dentry.from_c_dentry c_new_dentry)

/-- Trampoline for the setattr slot (fs/inode.rs, fn setattr); the iattr
pointer gets an explicit null check before being dereferenced. -/
def setattr (T : InodeOperations) (c_user_ns c_dentry c_attr : Ptr) : Int :=
  match UserNameSpace.from_c_user_namespace c_user_ns with
  | .error e => e.to_kernel_errno
  | .ok u =>
    match Dentry.from_c_dentry c_dentry with
    | .error e => e.to_kernel_errno
    | .ok d =>
      if c_attr = 0 then Error.EINVAL.to_kernel_errno
      else
        match T.setattr u d ⟨c_attr⟩ with
        | .error e => e.to_kernel_errno
        | .ok _ => 0

/-- True exactly when fn setattr reaches the plugin call. -/
def setattr_invoked (c_user_ns c_dentry c_attr : Ptr) : Bool :=
  wrap_succeeded (UserNameSpace.from_c_user_namespace c_user_ns) &&
    wrap_succeeded (Dentry.from_c_dentry c_dentry) && !(decide (c_attr = 0))

/-- Trampoline for the getattr slot (fs/inode.rs, fn getattr); the path and
kstat pointers get explicit null checks before being dereferenced. -/
def getattr (T : InodeOperations) (c_user_ns c_path c_kstat : Ptr)
    (c_request_mask c_query_flags : Nat) : Int :=
  match UserNameSpace.from_c_user_namespace c_user_ns with
  | .error e => e.to_kernel_errno
  | .ok u =>
    if c_path = 0 then Error.EINVAL.to_kernel_errno
    else if c_kstat = 0 then Error.EINVAL.to_kernel_errno
    else
      match T.getattr u ⟨c_path⟩ ⟨c_kstat⟩ c_request_mask c_query_flags with
      | .error e => e.to_kernel_errno
      | .ok _ => 0

/-- True exactly when fn getattr reaches the plugin call. -/
def getattr_invoked (c_user_ns c_path c_kstat : Ptr) : Bool :=
  wrap_succeeded (UserNameSpace.from_c_user_namespace c_user_ns) &&
    !(decide (c_path = 0)) && !(decide (c_kstat = 0))

end inode

namespace super_block

/-- Trampoline for the destroy_inode slot (fs/super_block.rs,
destroy_inode_callback); on an invalid inode it only logs and returns. -/
def destroy_inode_callback (T : SuperBlockOperations) (c_inode : Ptr) : Unit :=
  match Inode.from_c_inode c_inode with
  | .error _ => ()
  | .ok i => T.destroy_inode i

/-- True exactly when destroy_inode_callback reaches the plugin call. -/
def destroy_inode_invoked (c_inode : Ptr) : Bool :=
  wrap_succeeded (Inode.from_c_inode c_inode)

/-- Trampoline for the free_inode slot (fs/super_block.rs,
free_inode_callback). -/
def free_inode_callback (T : SuperBlockOperations) (c_inode : Ptr) : Unit :=
  match Inode.from_c_inode c_inode with
  | .error _ => ()
  | .ok i => T.free_inode i

/-- True exactly when free_inode_callback reaches the plugin call. -/
def free_inode_invoked (c_inode : Ptr) : Bool :=
  wrap_succeeded (Inode.from_c_inode c_inode)

/-- Trampoline for the drop_inode slot (fs/super_block.rs,
drop_inode_callback): on a failed wrap it returns the error code,
otherwise the plugin boolean cast to a C integer. -/
def drop_inode_callback (T : SuperBlockOperations) (c_inode : Ptr) : Int :=
  match Inode.from_c_inode c_inode with
  | .error e => e.to_kernel_errno
  | .ok i => bool_to_cint (T.drop_inode i)

/-- True exactly when drop_inode_callback reaches the plugin call. -/
def drop_inode_invoked (c_inode : Ptr) : Bool :=
  wrap_succeeded (Inode.from_c_inode c_inode)

/-- Trampoline for the evict_inode slot (fs/super_block.rs,
evict_inode_callback). -/
def evict_inode_callback (T : SuperBlockOperations) (c_inode : Ptr) : Unit :=
  match Inode.from_c_inode c_inode with
  | .error _ => ()
  | .ok i => T.evict_inode i

/-- True exactly when evict_inode_callback reaches the plugin call. -/
def evict_inode_invoked (c_inode : Ptr) : Bool :=
  wrap_succeeded (Inode.from_c_inode c_inode)

/-- Trampoline for the statfs slot (fs/super_block.rs, statfs_callback);
both wraps are computed, then checked in order dentry first. -/
def statfs_callback (T : SuperBlockOperations) (c_dentry c_kstatfs : Ptr) : Int :=
  let dentry_rs := Dentry.from_c_dentry c_dentry
  let kstatfs_rs := KStatFs.from_c_kstatfs c_kstatfs
  match dentry_rs with
  | .error e => e.to_kernel_errno
  | .ok d =>
    match kstatfs_rs with
    | .error e => e.to_kernel_errno
    | .ok k =>
      match T.statfs d k with
      | .error e => e.to_kernel_errno
      | .ok _ => 0

/-- True exactly when statfs_callback reaches the plugin call. -/
def statfs_invoked (c_dentry c_kstatfs : Ptr) : Bool :=
  wrap_succeeded (Dentry.from_c_dentry c_dentry) &&
    wrap_succeeded (KStatFs.from_c_kstatfs c_kstatfs)

/-- Trampoline for the show_options slot (fs/super_block.rs,
show_options_callback); checked in order seq_file first. -/
def show_options_callback (T : SuperBlockOperations)
    (c_seq_file c_dentry : Ptr) : Int :=
  let seq_file_rs := SeqFile.from_c_seq_file c_seq_file
  let dentry_rs := Dentry.from_c_dentry c_dentry
  match seq_file_rs with
  | .error e => e.to_kernel_errno
  | .ok s =>
    match dentry_rs with
    | .error e => e.to_kernel_errno
    | .ok d =>
      match T.show_options s d with
      | .error e => e.to_kernel_errno
      | .ok _ => 0

/-- True exactly when show_options_callback reaches the plugin call. -/
def show_options_invoked (c_seq_file c_dentry : Ptr) : Bool :=
  wrap_succeeded (SeqFile.from_c_seq_file c_seq_file) &&
    wrap_succeeded (Dentry.from_c_dentry c_dentry)

end super_block

namespace dentry

/-- Trampoline for the d_delete slot (fs/dentry.rs, d_delete_callback): on a
failed wrap it logs and returns 1, otherwise the plugin boolean cast to a C
integer. -/
def d_delete_callback (T : DentryOperations) (c_dentry : Ptr) : Int :=
  match Dentry.from_c_dentry c_dentry with
  | .error _ => 1
  | .ok d => bool_to_cint (T.d_delete d)

/-- True exactly when d_delete_callback reaches the plugin call. -/
def d_delete_invoked (c_dentry : Ptr) : Bool :=
  wrap_succeeded (Dentry.from_c_dentry c_dentry)

end dentry

/-- Mount strategy selected by a filesystem plugin (fs/mod.rs, enum
MountType). -/
inductive MountType
  | Custom
  | BDev
  | NoDev
  | Single
deriving DecidableEq

/-- Plugin-facing filesystem trait (fs/mod.rs, trait FileSystem) with the
source default method bodies. -/
structure FileSystem where
  MOUNT_TYPE : MountType
  mount : FSType → Int → CStr → CStr → Result Dentry :=
    fun _ _ _ _ => .error Error.EINVAL
  fill_super : SuperBlock → CStr → Int → Result Unit :=
    fun _ _ _ => .error Error.EINVAL
  kill_sb : SuperBlock → Unit := fun _ => ()

/-- The host mount helpers called by mount_callback (bindings mount_single,
mount_bdev, mount_nodev); each yields the raw dentry pointer the host
returns, abstracted as an arbitrary function of the raw arguments. -/
structure HostMount where
  mount_single : Ptr → Int → Ptr → Ptr
  mount_bdev : Ptr → Int → Ptr → Ptr → Ptr
  mount_nodev : Ptr → Int → Ptr → Ptr

/-- Trampoline for the mount slot (fs/mod.rs, mount_callback).  The fs_type
wrap result is immediately unwrapped, so a null fs_type panics: the panic is
modelled as none.  Null dev_name and data C strings are replaced by the
empty literal.  Otherwise the result is the raw dentry pointer, or the host
error code cast to a pointer. -/
def mount_callback (T : FileSystem) (H : HostMount) (fs_type : Ptr)
    (flags : Int) (dev_name data : Ptr) : Option Int :=
  match FSType.from_c_fs_type fs_type with
  | .error _ => none
  | .ok r_fs_type =>
    let r_dev_name := if dev_name = 0 then CStr.empty else CStr.fromPtr dev_name
    let r_data := if data = 0 then CStr.empty else CStr.fromPtr data
    let rt : Result Dentry :=
      match T.MOUNT_TYPE with
      | .Custom => T.mount r_fs_type flags r_dev_name r_data
      | .Single => Dentry.from_c_dentry (H.mount_single fs_type flags data)
      | .BDev => Dentry.from_c_dentry (H.mount_bdev fs_type flags dev_name data)
      | .NoDev => Dentry.from_c_dentry (H.mount_nodev fs_type flags data)
    match rt with
    | .error e => some e.to_kernel_errno
    | .ok d => some (d.to_c_dentry : Int)

/-- True exactly when mount_callback reaches the plugin mount method, which
happens only in Custom mode after the fs_type wrap succeeds. -/
def mount_plugin_invoked (T : FileSystem) (fs_type : Ptr) : Bool :=
  wrap_succeeded (FSType.from_c_fs_type fs_type) &&
    (match T.MOUNT_TYPE with
     | MountType.Custom => true
     | _ => false)

/-- Trampoline for fill_super (fs/mod.rs, fill_super_callback); a null data
C string is replaced by the empty literal. -/
def fill_super_callback (T : FileSystem) (sb : Ptr) (data : Ptr)
    (silent : Int) : Int :=
  match SuperBlock.from_c_super_block sb with
  | .error e => e.to_kernel_errno
  | .ok r_sb =>
    let r_data := if data = 0 then CStr.empty else CStr.fromPtr data
    match T.fill_super r_sb r_data silent with
    | .error e => e.to_kernel_errno
    | .ok _ => 0

/-- True exactly when fill_super_callback reaches the plugin call; the data
pointer is never checked. -/
def fill_super_invoked (sb : Ptr) : Bool :=
  wrap_succeeded (SuperBlock.from_c_super_block sb)

/-- Trampoline for kill_sb (fs/mod.rs, kill_sb_callback); the plugin is
notified only when the superblock wrap succeeds, and nothing is returned. -/
def kill_sb_callback (T : FileSystem) (sb : Ptr) : Unit :=
  match SuperBlock.from_c_super_block sb with
  | .error _ => ()
  | .ok r_sb => T.kill_sb r_sb

/-- True exactly when kill_sb_callback reaches the plugin call. -/
def kill_sb_invoked (sb : Ptr) : Bool :=
  wrap_succeeded (SuperBlock.from_c_super_block sb)

/-- The host-owned C file_system_type record that registration fills in
(bindings::file_system_type, boxed as FSHandle): the mount and kill_sb
slots, the owning module, and the registry name. -/
structure file_system_type where
  mount : Option CFn
  kill_sb : Option CFn
  owner : Nat
  name : String
deriving DecidableEq

/-- The zeroed file_system_type record (file_system_type::default()). -/
def file_system_type.default : file_system_type :=
  { mount := none, kill_sb := none, owner := 0, name := "" }

/-- Modelled from the spec: the host global filesystem registry touched by
register_filesystem and unregister_filesystem (host VFS code, not under
src/), as the list of currently published names. -/
structure Registry where
  names : List String
deriving DecidableEq

/-- Modelled from the spec: the host register_filesystem call (not under
src/) publishes the name, failing deterministically with a nonzero code when
the name is already present. -/
def register_filesystem (r : Registry) (name : String) : Registry × Int :=
  if name ∈ r.names then (r, -16) else (⟨name :: r.names⟩, 0)

/-- Modelled from the spec: the host unregister_filesystem call (not under
src/) removes the publication, failing deterministically with the
InvalidArgument code when the name is absent. -/
def unregister_filesystem (r : Registry) (name : String) : Registry × Int :=
  if name ∈ r.names then (⟨r.names.erase name⟩, 0) else (r, -22)

/-- Registration (fs/mod.rs, FileSystem::register_self): build the
file_system_type record with the mount and kill_sb trampolines installed,
publish it in the host registry, and return it as the handle, or surface the
host failure code as an error. -/
def register_self (r : Registry) (name : String) (owner : Nat) :
    Registry × Result file_system_type :=
  let c_fs_type : file_system_type :=
    { file_system_type.default with
        mount := some .mount_cb, kill_sb := some .kill_sb_cb,
        owner := owner, name := name }
  let rr := register_filesystem r c_fs_type.name
  if rr.2 ≠ 0 then (rr.1, .error (Error.from_kernel_errno rr.2))
  else (rr.1, .ok c_fs_type)

/-- Unregistration (fs/mod.rs, FileSystem::unregister_self): withdraw the
publication, surfacing a nonzero host code as an error result. -/
def unregister_self (r : Registry) (h : file_system_type) :
    Registry × Result Unit :=
  let rr := unregister_filesystem r h.name
  if rr.2 ≠ 0 then (rr.1, .error (Error.from_kernel_errno rr.2))
  else (rr.1, .ok ())

/-- Modelled from the spec: the fixed enumeration of structured error kinds
of the bidirectional error mapping (rust/kernel/error.rs is not under src/),
negative-errno style, with one well-defined unknown kind. -/
inductive ErrorKind
  | EPERM
  | ENOENT
  | ENOMEM
  | EACCES
  | EBUSY
  | EEXIST
  | EINVAL
  | ENOSPC
  | EOPNOTSUPP
  | EUNKNOWN
deriving DecidableEq

/-- Modelled from the spec: the total mapping from an error kind to the host
integer code; the unknown kind, having no precise host equivalent, maps to
the generic invalid-argument code. -/
def ErrorKind.toHostCode : ErrorKind → Int
  | .EPERM => -1
  | .ENOENT => -2
  | .ENOMEM => -12
  | .EACCES => -13
  | .EBUSY => -16
  | .EEXIST => -17
  | .EINVAL => -22
  | .ENOSPC => -28
  | .EOPNOTSUPP => -95
  | .EUNKNOWN => -22

/-- The host codes that map back to a precise error kind. -/
def knownHostCodes : List Int :=
  [-1, -2, -12, -13, -16, -17, -22, -28, -95]

/-- Modelled from the spec: the total mapping from a host integer code back
to an error kind; every unmapped code yields the one unknown kind. -/
def ErrorKind.fromHostCode (n : Int) : ErrorKind :=
  if n = -1 then .EPERM
  else if n = -2 then .ENOENT
  else if n = -12 then .ENOMEM
  else if n = -13 then .EACCES
  else if n = -16 then .EBUSY
  else if n = -17 then .EEXIST
  else if n = -22 then .EINVAL
  else if n = -28 then .ENOSPC
  else if n = -95 then .EOPNOTSUPP
  else .EUNKNOWN

/-- A plugin instance keeping every inode operation at its default body. -/
def inodeOpsStub : inode.InodeOperations := {}

/-- A plugin instance keeping every superblock operation at its default
body, with no capability selected. -/
def sbOpsStub : super_block.SuperBlockOperations := { TO_USE := super_block.USE_NONE }

/-- A plugin instance keeping d_delete at its default body, with no
capability selected. -/
def dOpsStub : dentry.DentryOperations := { TO_USE := dentry.USE_NONE }

/-- A filesystem plugin keeping every method at its default body. -/
def fsStub : FileSystem := { MOUNT_TYPE := .Single }

/-- A filesystem plugin whose fill_super reports the distinctive error code
-99, used to observe that the plugin really ran. -/
def fsProbe : FileSystem :=
  { MOUNT_TYPE := .Single, fill_super := fun _ _ _ => .error ⟨-99⟩ }

/-- A host mount stub returning the null dentry from every helper. -/
def hostStub : HostMount :=
  { mount_single := fun _ _ _ => 0
    mount_bdev := fun _ _ _ _ => 0
    mount_nodev := fun _ _ _ => 0 }

/-- Closed form of the create trampoline: EINVAL when any handle is null,
otherwise the translated plugin result. -/
lemma create_eq (T : inode.InodeOperations) (p q r : Ptr) (m : UMode) (ex : Bool) :
    inode.create T p q r m ex =
      if p = 0 ∨ q = 0 ∨ r = 0 then Error.EINVAL.to_kernel_errno
      else hostResult (T.create ⟨p⟩ ⟨q⟩ ⟨r⟩ m ex) := by
  by_cases hp : p = 0 <;> by_cases hq : q = 0 <;> by_cases hr : r = 0 <;>
    simp [inode.create, hostResult, UserNameSpace.from_c_user_namespace,
      Inode.from_c_inode, Dentry.from_c_dentry, hp, hq, hr] <;>
    cases T.create ⟨p⟩ ⟨q⟩ ⟨r⟩ m ex <;> rfl

/-- Closed form of the create invocation guard. -/
lemma create_invoked_eq (p q r : Ptr) :
    inode.create_invoked p q r =
      (!(decide (p = 0)) && !(decide (q = 0)) && !(decide (r = 0))) := by
  by_cases hp : p = 0 <;> by_cases hq : q = 0 <;> by_cases hr : r = 0 <;>
    simp [inode.create_invoked, wrap_succeeded, UserNameSpace.from_c_user_namespace,
      Inode.from_c_inode, Dentry.from_c_dentry, hp, hq, hr]

/-- Closed form of the lookup trampoline. -/
lemma lookup_eq (T : inode.InodeOperations) (p q : Ptr) (fl : Nat) :
    inode.lookup T p q fl =
      if p = 0 ∨ q = 0 then Error.EINVAL.to_kernel_errno
      else hostPtrResult (T.lookup ⟨p⟩ ⟨q⟩ fl) := by
  by_cases hp : p = 0 <;> by_cases hq : q = 0 <;>
    simp [inode.lookup, hostPtrResult, Inode.from_c_inode, Dentry.from_c_dentry,
      hp, hq] <;>
    cases T.lookup ⟨p⟩ ⟨q⟩ fl <;> rfl

/-- Closed form of the lookup invocation guard. -/
lemma lookup_invoked_eq (p q : Ptr) :
    inode.lookup_invoked p q = (!(decide (p = 0)) && !(decide (q = 0))) := by
  by_cases hp : p = 0 <;> by_cases hq : q = 0 <;>
    simp [inode.lookup_invoked, wrap_succeeded, Inode.from_c_inode,
      Dentry.from_c_dentry, hp, hq]

/-- Closed form of the link trampoline. -/
lemma link_eq (T : inode.InodeOperations) (p q r : Ptr) :
    inode.link T p q r =
      if p = 0 ∨ q = 0 ∨ r = 0 then Error.EINVAL.to_kernel_errno
      else hostResult (T.link ⟨p⟩ ⟨q⟩ ⟨r⟩) := by
  by_cases hp : p = 0 <;> by_cases hq : q = 0 <;> by_cases hr : r = 0 <;>
    simp [inode.link, hostResult, Inode.from_c_inode, Dentry.from_c_dentry,
      hp, hq, hr] <;>
    cases T.link ⟨p⟩ ⟨q⟩ ⟨r⟩ <;> rfl

/-- Closed form of the link invocation guard. -/
lemma link_invoked_eq (p q r : Ptr) :
    inode.link_invoked p q r =
      (!(decide (p = 0)) && !(decide (q = 0)) && !(decide (r = 0))) := by
  by_cases hp : p = 0 <;> by_cases hq : q = 0 <;> by_cases hr : r = 0 <;>
    simp [inode.link_invoked, wrap_succeeded, Inode.from_c_inode,
      Dentry.from_c_dentry, hp, hq, hr]

/-- Closed form of the unlink trampoline. -/
lemma unlink_eq (T : inode.InodeOperations) (p q : Ptr) :
    inode.unlink T p q =
      if p = 0 ∨ q = 0 then Error.EINVAL.to_kernel_errno
      else hostResult (T.unlink ⟨p⟩ ⟨q⟩) := by
  by_cases hp : p = 0 <;> by_cases hq : q = 0 <;>
    simp [inode.unlink, hostResult, Inode.from_c_inode, Dentry.from_c_dentry,
      hp, hq] <;>
    cases T.unlink ⟨p⟩ ⟨q⟩ <;> rfl

/-- Closed form of the unlink invocation guard. -/
lemma unlink_invoked_eq (p q : Ptr) :
    inode.unlink_invoked p q = (!(decide (p = 0)) && !(decide (q = 0))) := by
  by_cases hp : p = 0 <;> by_cases hq : q = 0 <;>
    simp [inode.unlink_invoked, wrap_succeeded, Inode.from_c_inode,
      Dentry.from_c_dentry, hp, hq]

/-- Closed form of the symlink trampoline: the symname pointer is never
validated, only the three handles are. -/
lemma symlink_eq (T : inode.InodeOperations) (p q r s : Ptr) :
    inode.symlink T p q r s =
      if p = 0 ∨ q = 0 ∨ r = 0 then Error.EINVAL.to_kernel_errno
      else hostResult (T.symlink ⟨p⟩ ⟨q⟩ ⟨r⟩ (CStr.fromPtr s)) := by
  by_cases hp : p = 0 <;> by_cases hq : q = 0 <;> by_cases hr : r = 0 <;>
    simp [inode.symlink, hostResult, UserNameSpace.from_c_user_namespace,
      Inode.from_c_inode, Dentry.from_c_dentry, hp, hq, hr] <;>
    cases T.symlink ⟨p⟩ ⟨q⟩ ⟨r⟩ (CStr.fromPtr s) <;> rfl

/-- Closed form of the symlink invocation guard. -/
lemma symlink_invoked_eq (p q r : Ptr) :
    inode.symlink_invoked p q r =
      (!(decide (p = 0)) && !(decide (q = 0)) && !(decide (r = 0))) := by
  by_cases hp : p = 0 <;> by_cases hq : q = 0 <;> by_cases hr : r = 0 <;>
    simp [inode.symlink_invoked, wrap_succeeded, UserNameSpace.from_c_user_namespace,
      Inode.from_c_inode, Dentry.from_c_dentry, hp, hq, hr]

/-- Closed form of the mkdir trampoline. -/
lemma mkdir_eq (T : inode.InodeOperations) (p q r : Ptr) (m : UMode) :
    inode.mkdir T p q r m =
      if p = 0 ∨ q = 0 ∨ r = 0 then Error.EINVAL.to_kernel_errno
      else hostResult (T.mkdir ⟨p⟩ ⟨q⟩ ⟨r⟩ m) := by
  by_cases hp : p = 0 <;> by_cases hq : q = 0 <;> by_cases hr : r = 0 <;>
    simp [inode.mkdir, hostResult, UserNameSpace.from_c_user_namespace,
      Inode.from_c_inode, Dentry.from_c_dentry, hp, hq, hr] <;>
    cases T.mkdir ⟨p⟩ ⟨q⟩ ⟨r⟩ m <;> rfl

/-- Closed form of the mkdir invocation guard. -/
lemma mkdir_invoked_eq (p q r : Ptr) :
    inode.mkdir_invoked p q r =
      (!(decide (p = 0)) && !(decide (q = 0)) && !(decide (r = 0))) := by
  by_cases hp : p = 0 <;> by_cases hq : q = 0 <;> by_cases hr : r = 0 <;>
    simp [inode.mkdir_invoked, wrap_succeeded, UserNameSpace.from_c_user_namespace,
      Inode.from_c_inode, Dentry.from_c_dentry, hp, hq, hr]

/-- Closed form of the rmdir trampoline. -/
lemma rmdir_eq (T : inode.InodeOperations) (p q : Ptr) :
    inode.rmdir T p q =
      if p = 0 ∨ q = 0 then Error.EINVAL.to_kernel_errno
      else hostResult (T.rmdir ⟨p⟩ ⟨q⟩) := by
  by_cases hp : p = 0 <;> by_cases hq : q = 0 <;>
    simp [inode.rmdir, hostResult, Inode.from_c_inode, Dentry.from_c_dentry,
      hp, hq] <;>
    cases T.rmdir ⟨p⟩ ⟨q⟩ <;> rfl

/-- Closed form of the rmdir invocation guard. -/
lemma rmdir_invoked_eq (p q : Ptr) :
    inode.rmdir_invoked p q = (!(decide (p = 0)) && !(decide (q = 0))) := by
  by_cases hp : p = 0 <;> by_cases hq : q = 0 <;>
    simp [inode.rmdir_invoked, wrap_succeeded, Inode.from_c_inode,
      Dentry.from_c_dentry, hp, hq]

/-- Closed form of the mknod trampoline. -/
lemma mknod_eq (T : inode.InodeOperations) (p q r : Ptr) (m : UMode)
    (rd : DevType) :
    inode.mknod T p q r m rd =
      if p = 0 ∨ q = 0 ∨ r = 0 then Error.EINVAL.to_kernel_errno
      else hostResult (T.mknod ⟨p⟩ ⟨q⟩ ⟨r⟩ m rd) := by
  by_cases hp : p = 0 <;> by_cases hq : q = 0 <;> by_cases hr : r = 0 <;>
    simp [inode.mknod, hostResult, UserNameSpace.from_c_user_namespace,
      Inode.from_c_inode, Dentry.from_c_dentry, hp, hq, hr] <;>
    cases T.mknod ⟨p⟩ ⟨q⟩ ⟨r⟩ m rd <;> rfl

/-- Closed form of the mknod invocation guard. -/
lemma mknod_invoked_eq (p q r : Ptr) :
    inode.mknod_invoked p q r =
      (!(decide (p = 0)) && !(decide (q = 0)) && !(decide (r = 0))) := by
  by_cases hp : p = 0 <;> by_cases hq : q = 0 <;> by_cases hr : r = 0 <;>
    simp [inode.mknod_invoked, wrap_succeeded, UserNameSpace.from_c_user_namespace,
      Inode.from_c_inode, Dentry.from_c_dentry, hp, hq, hr]

/-- Closed form of the rename trampoline. -/
lemma rename_eq (T : inode.InodeOperations) (p q r s t : Ptr) (fl : Nat) :
    inode.rename T p q r s t fl =
      if p = 0 ∨ q = 0 ∨ r = 0 ∨ s = 0 ∨ t = 0 then Error.EINVAL.to_kernel_errno
      else hostResult (T.rename ⟨p⟩ ⟨q⟩ ⟨r⟩ ⟨s⟩ ⟨t⟩ fl) := by
  by_cases hp : p = 0 <;> by_cases hq : q = 0 <;> by_cases hr : r = 0 <;>
    by_cases hs : s = 0 <;> by_cases ht : t = 0 <;>
    simp [inode.rename, hostResult, UserNameSpace.from_c_user_namespace,
      Inode.from_c_inode, Dentry.from_c_dentry, hp, hq, hr, hs, ht] <;>
    cases T.rename ⟨p⟩ ⟨q⟩ ⟨r⟩ ⟨s⟩ ⟨t⟩ fl <;> rfl

/-- Closed form of the rename invocation guard. -/
lemma rename_invoked_eq (p q r s t : Ptr) :
    inode.rename_invoked p q r s t =
      (!(decide (p = 0)) && !(decide (q = 0)) && !(decide (r = 0)) &&
        !(decide (s = 0)) && !(decide (t = 0))) := by
  by_cases hp : p = 0 <;> by_cases hq : q = 0 <;> by_cases hr : r = 0 <;>
    by_cases hs : s = 0 <;> by_cases ht : t = 0 <;>
    simp [inode.rename_invoked, wrap_succeeded, UserNameSpace.from_c_user_namespace,
      Inode.from_c_inode, Dentry.from_c_dentry, hp, hq, hr, hs, ht]

/-- Closed form of the setattr trampoline: the two handles and the iattr
pointer are all validated. -/
lemma setattr_eq (T : inode.InodeOperations) (p q r : Ptr) :
    inode.setattr T p q r =
      if p = 0 ∨ q = 0 ∨ r = 0 then Error.EINVAL.to_kernel_errno
      else hostResult (T.setattr ⟨p⟩ ⟨q⟩ ⟨r⟩) := by
  by_cases hp : p = 0 <;> by_cases hq : q = 0 <;> by_cases hr : r = 0 <;>
    simp [inode.setattr, hostResult, UserNameSpace.from_c_user_namespace,
      Dentry.from_c_dentry, hp, hq, hr] <;>
    cases T.setattr ⟨p⟩ ⟨q⟩ ⟨r⟩ <;> rfl

/-- Closed form of the setattr invocation guard. -/
lemma setattr_invoked_eq (p q r : Ptr) :
    inode.setattr_invoked p q r =
      (!(decide (p = 0)) && !(decide (q = 0)) && !(decide (r = 0))) := by
  by_cases hp : p = 0 <;> by_cases hq : q = 0 <;> by_cases hr : r = 0 <;>
    simp [inode.setattr_invoked, wrap_succeeded, UserNameSpace.from_c_user_namespace,
      Dentry.from_c_dentry, hp, hq, hr]

/-- Closed form of the getattr trampoline: the namespace handle and the path
and kstat pointers are all validated. -/
lemma getattr_eq (T : inode.InodeOperations) (p q r : Ptr) (rq qf : Nat) :
    inode.getattr T p q r rq qf =
      if p = 0 ∨ q = 0 ∨ r = 0 then Error.EINVAL.to_kernel_errno
      else hostResult (T.getattr ⟨p⟩ ⟨q⟩ ⟨r⟩ rq qf) := by
  by_cases hp : p = 0 <;> by_cases hq : q = 0 <;> by_cases hr : r = 0 <;>
    simp [inode.getattr, hostResult, UserNameSpace.from_c_user_namespace,
      hp, hq, hr] <;>
    cases T.getattr ⟨p⟩ ⟨q⟩ ⟨r⟩ rq qf <;> rfl

/-- Closed form of the getattr invocation guard. -/
lemma getattr_invoked_eq (p q r : Ptr) :
    inode.getattr_invoked p q r =
      (!(decide (p = 0)) && !(decide (q = 0)) && !(decide (r = 0))) := by
  by_cases hp : p = 0 <;> by_cases hq : q = 0 <;> by_cases hr : r = 0 <;>
    simp [inode.getattr_invoked, wrap_succeeded, UserNameSpace.from_c_user_namespace,
      hp, hq, hr]

/-- Closed form of the fill_super trampoline: only the superblock handle is
validated; a null data string is defaulted, not rejected. -/
lemma fill_super_eq (T : FileSystem) (p da : Ptr) (sil : Int) :
    fill_super_callback T p da sil =
      if p = 0 then Error.EINVAL.to_kernel_errno
      else hostResult
        (T.fill_super ⟨p⟩ (if da = 0 then CStr.empty else CStr.fromPtr da) sil) := by
  by_cases hp : p = 0 <;>
    simp [fill_super_callback, hostResult, SuperBlock.from_c_super_block, hp] <;>
    cases T.fill_super ⟨p⟩ (if da = 0 then CStr.empty else CStr.fromPtr da) sil <;> rfl

/-- Closed form of the fill_super invocation guard. -/
lemma fill_super_invoked_eq (p : Ptr) :
    fill_super_invoked p = !(decide (p = 0)) := by
  by_cases hp : p = 0 <;>
    simp [fill_super_invoked, wrap_succeeded, SuperBlock.from_c_super_block, hp]

/-- Closed form of the statfs trampoline. -/
lemma statfs_eq (T : super_block.SuperBlockOperations) (p q : Ptr) :
    super_block.statfs_callback T p q =
      if p = 0 ∨ q = 0 then Error.EINVAL.to_kernel_errno
      else hostResult (T.statfs ⟨p⟩ ⟨q⟩) := by
  by_cases hp : p = 0 <;> by_cases hq : q = 0 <;>
    simp [super_block.statfs_callback, hostResult, Dentry.from_c_dentry,
      KStatFs.from_c_kstatfs, hp, hq] <;>
    cases T.statfs ⟨p⟩ ⟨q⟩ <;> rfl

/-- Closed form of the statfs invocation guard. -/
lemma statfs_invoked_eq (p q : Ptr) :
    super_block.statfs_invoked p q = (!(decide (p = 0)) && !(decide (q = 0))) := by
  by_cases hp : p = 0 <;> by_cases hq : q = 0 <;>
    simp [super_block.statfs_invoked, wrap_succeeded, Dentry.from_c_dentry,
      KStatFs.from_c_kstatfs, hp, hq]

/-- Closed form of the show_options trampoline. -/
lemma show_options_eq (T : super_block.SuperBlockOperations) (p q : Ptr) :
    super_block.show_options_callback T p q =
      if p = 0 ∨ q = 0 then Error.EINVAL.to_kernel_errno
      else hostResult (T.show_options ⟨p⟩ ⟨q⟩) := by
  by_cases hp : p = 0 <;> by_cases hq : q = 0 <;>
    simp [super_block.show_options_callback, hostResult, SeqFile.from_c_seq_file,
      Dentry.from_c_dentry, hp, hq] <;>
    cases T.show_options ⟨p⟩ ⟨q⟩ <;> rfl

/-- Closed form of the show_options invocation guard. -/
lemma show_options_invoked_eq (p q : Ptr) :
    super_block.show_options_invoked p q =
      (!(decide (p = 0)) && !(decide (q = 0))) := by
  by_cases hp : p = 0 <;> by_cases hq : q = 0 <;>
    simp [super_block.show_options_invoked, wrap_succeeded, SeqFile.from_c_seq_file,
      Dentry.from_c_dentry, hp, hq]

/-- Closed form of the drop_inode trampoline: the null path goes through
error translation, the valid path casts the plugin boolean. -/
lemma drop_inode_eq (T : super_block.SuperBlockOperations) (p : Ptr) :
    super_block.drop_inode_callback T p =
      if p = 0 then Error.EINVAL.to_kernel_errno
      else bool_to_cint (T.drop_inode ⟨p⟩) := by
  by_cases hp : p = 0 <;>
    simp [super_block.drop_inode_callback, Inode.from_c_inode, hp]

/-- Closed form of the drop_inode invocation guard. -/
lemma drop_inode_invoked_eq (p : Ptr) :
    super_block.drop_inode_invoked p = !(decide (p = 0)) := by
  by_cases hp : p = 0 <;>
    simp [super_block.drop_inode_invoked, wrap_succeeded, Inode.from_c_inode, hp]

/-- Closed form of the d_delete trampoline: the null path returns 1, the
valid path casts the plugin boolean. -/
lemma d_delete_eq (T : dentry.DentryOperations) (p : Ptr) :
    dentry.d_delete_callback T p =
      if p = 0 then 1 else bool_to_cint (T.d_delete ⟨p⟩) := by
  by_cases hp : p = 0 <;>
    simp [dentry.d_delete_callback, Dentry.from_c_dentry, hp]

/-- Closed form of the d_delete invocation guard. -/
lemma d_delete_invoked_eq (p : Ptr) :
    dentry.d_delete_invoked p = !(decide (p = 0)) := by
  by_cases hp : p = 0 <;>
    simp [dentry.d_delete_invoked, wrap_succeeded, Dentry.from_c_dentry, hp]

/-- Closed form of the destroy_inode invocation guard. -/
lemma destroy_inode_invoked_eq (p : Ptr) :
    super_block.destroy_inode_invoked p = !(decide (p = 0)) := by
  by_cases hp : p = 0 <;>
    simp [super_block.destroy_inode_invoked, wrap_succeeded, Inode.from_c_inode, hp]

/-- Closed form of the free_inode invocation guard. -/
lemma free_inode_invoked_eq (p : Ptr) :
    super_block.free_inode_invoked p = !(decide (p = 0)) := by
  by_cases hp : p = 0 <;>
    simp [super_block.free_inode_invoked, wrap_succeeded, Inode.from_c_inode, hp]

/-- Closed form of the evict_inode invocation guard. -/
lemma evict_inode_invoked_eq (p : Ptr) :
    super_block.evict_inode_invoked p = !(decide (p = 0)) := by
  by_cases hp : p = 0 <;>
    simp [super_block.evict_inode_invoked, wrap_succeeded, Inode.from_c_inode, hp]

/-- Closed form of the kill_sb invocation guard. -/
lemma kill_sb_invoked_eq (p : Ptr) :
    kill_sb_invoked p = !(decide (p = 0)) := by
  by_cases hp : p = 0 <;>
    simp [kill_sb_invoked, wrap_succeeded, SuperBlock.from_c_super_block, hp]

/-- The mount trampoline panics (modelled as none) on a null fs_type. -/
lemma mount_null (T : FileSystem) (H : HostMount) (flags : Int) (dn da : Ptr) :
    mount_callback T H 0 flags dn da = none := rfl

/-- The plugin mount method is never reached on a null fs_type. -/
lemma mount_invoked_null (T : FileSystem) :
    mount_plugin_invoked T 0 = false := by
  simp [mount_plugin_invoked, wrap_succeeded, FSType.from_c_fs_type]

/-- C1 (amended): for every trampoline, when any raw handle argument (a
pointer wrapped through a from_c constructor, or the explicitly checked
iattr, path and kstat pointers) is null, the plugin method is never invoked;
the integer-returning trampolines other than d_delete_callback return the
InvalidArgument code, d_delete_callback returns 1, the notification
trampolines return nothing, and mount_callback panics on a null fs_type
instead of returning a code.  Null C-string pointers are not handles and are
not rejected. -/
theorem c1_null_handle_rejection
    (Ti : inode.InodeOperations) (Ts : super_block.SuperBlockOperations)
    (Td : dentry.DentryOperations) (Tf : FileSystem) (H : HostMount)
    (p q r s t : Ptr) (m : UMode) (rd : DevType) (fl rq qf : Nat)
    (ex : Bool) (sil flags : Int) :
    (p = 0 ∨ q = 0 →
      inode.lookup Ti p q fl = Error.EINVAL.to_kernel_errno ∧
        inode.lookup_invoked p q = false) ∧
    (p = 0 ∨ q = 0 ∨ r = 0 →
      inode.create Ti p q r m ex = Error.EINVAL.to_kernel_errno ∧
        inode.create_invoked p q r = false) ∧
    (p = 0 ∨ q = 0 ∨ r = 0 →
      inode.link Ti p q r = Error.EINVAL.to_kernel_errno ∧
        inode.link_invoked p q r = false) ∧
    (p = 0 ∨ q = 0 →
      inode.unlink Ti p q = Error.EINVAL.to_kernel_errno ∧
        inode.unlink_invoked p q = false) ∧
    (p = 0 ∨ q = 0 ∨ r = 0 →
      inode.symlink Ti p q r s = Error.EINVAL.to_kernel_errno ∧
        inode.symlink_invoked p q r = false) ∧
    (p = 0 ∨ q = 0 ∨ r = 0 →
      inode.mkdir Ti p q r m = Error.EINVAL.to_kernel_errno ∧
        inode.mkdir_invoked p q r = false) ∧
    (p = 0 ∨ q = 0 →
      inode.rmdir Ti p q = Error.EINVAL.to_kernel_errno ∧
        inode.rmdir_invoked p q = false) ∧
    (p = 0 ∨ q = 0 ∨ r = 0 →
      inode.mknod Ti p q r m rd = Error.EINVAL.to_kernel_errno ∧
        inode.mknod_invoked p q r = false) ∧
    (p = 0 ∨ q = 0 ∨ r = 0 ∨ s = 0 ∨ t = 0 →
      inode.rename Ti p q r s t fl = Error.EINVAL.to_kernel_errno ∧
        inode.rename_invoked p q r s t = false) ∧
    (p = 0 ∨ q = 0 ∨ r = 0 →
      inode.setattr Ti p q r = Error.EINVAL.to_kernel_errno ∧
        inode.setattr_invoked p q r = false) ∧
    (p = 0 ∨ q = 0 ∨ r = 0 →
      inode.getattr Ti p q r rq qf = Error.EINVAL.to_kernel_errno ∧
        inode.getattr_invoked p q r = false) ∧
    (p = 0 →
      fill_super_callback Tf p q sil = Error.EINVAL.to_kernel_errno ∧
        fill_super_invoked p = false) ∧
    (p = 0 ∨ q = 0 →
      super_block.statfs_callback Ts p q = Error.EINVAL.to_kernel_errno ∧
        super_block.statfs_invoked p q = false) ∧
    (p = 0 ∨ q = 0 →
      super_block.show_options_callback Ts p q = Error.EINVAL.to_kernel_errno ∧
        super_block.show_options_invoked p q = false) ∧
    (p = 0 →
      super_block.drop_inode_callback Ts p = Error.EINVAL.to_kernel_errno ∧
        super_block.drop_inode_invoked p = false) ∧
    (p = 0 →
      dentry.d_delete_callback Td p = 1 ∧ dentry.d_delete_invoked p = false) ∧
    (p = 0 → super_block.destroy_inode_invoked p = false) ∧
    (p = 0 → super_block.free_inode_invoked p = false) ∧
    (p = 0 → super_block.evict_inode_invoked p = false) ∧
    (p = 0 → kill_sb_invoked p = false) ∧
    (p = 0 →
      mount_callback Tf H p flags q r = none ∧
        mount_plugin_invoked Tf p = false) := by
  refine ⟨?_, ?_, ?_, ?_, ?_, ?_, ?_, ?_, ?_, ?_, ?_, ?_, ?_, ?_, ?_, ?_, ?_,
    ?_, ?_, ?_, ?_⟩
  · intro h
    rw [lookup_eq, lookup_invoked_eq]
    rcases h with rfl | rfl <;> simp
  · intro h
    rw [create_eq, create_invoked_eq]
    rcases h with rfl | rfl | rfl <;> simp
  · intro h
    rw [link_eq, link_invoked_eq]
    rcases h with rfl | rfl | rfl <;> simp
  · intro h
    rw [unlink_eq, unlink_invoked_eq]
    rcases h with rfl | rfl <;> simp
  · intro h
    rw [symlink_eq, symlink_invoked_eq]
    rcases h with rfl | rfl | rfl <;> simp
  · intro h
    rw [mkdir_eq, mkdir_invoked_eq]
    rcases h with rfl | rfl | rfl <;> simp
  · intro h
    rw [rmdir_eq, rmdir_invoked_eq]
    rcases h with rfl | rfl <;> simp
  · intro h
    rw [mknod_eq, mknod_invoked_eq]
    rcases h with rfl | rfl | rfl <;> simp
  · intro h
    rw [rename_eq, rename_invoked_eq]
    rcases h with rfl | rfl | rfl | rfl | rfl <;> simp
  · intro h
    rw [setattr_eq, setattr_invoked_eq]
    rcases h with rfl | rfl | rfl <;> simp
  · intro h
    rw [getattr_eq, getattr_invoked_eq]
    rcases h with rfl | rfl | rfl <;> simp
  · rintro rfl
    rw [fill_super_eq, fill_super_invoked_eq]
    simp
  · intro h
    rw [statfs_eq, statfs_invoked_eq]
    rcases h with rfl | rfl <;> simp
  · intro h
    rw [show_options_eq, show_options_invoked_eq]
    rcases h with rfl | rfl <;> simp
  · rintro rfl
    rw [drop_inode_eq, drop_inode_invoked_eq]
    simp
  · rintro rfl
    rw [d_delete_eq, d_delete_invoked_eq]
    simp
  · rintro rfl
    rw [destroy_inode_invoked_eq]
    simp
  · rintro rfl
    rw [free_inode_invoked_eq]
    simp
  · rintro rfl
    rw [evict_inode_invoked_eq]
    simp
  · rintro rfl
    rw [kill_sb_invoked_eq]
    simp
  · rintro rfl
    exact ⟨mount_null Tf H flags q r, mount_invoked_null Tf⟩

/-- Witness for C1: with a null namespace handle, the create trampoline
returns the InvalidArgument code and never reaches the plugin. -/
theorem c1_witness :
    inode.create inodeOpsStub 0 2 3 0 false = Error.EINVAL.to_kernel_errno ∧
      inode.create_invoked 0 2 3 = false :=
  (c1_null_handle_rejection inodeOpsStub sbOpsStub dOpsStub fsStub hostStub
    0 2 3 4 5 0 0 0 0 0 false 0 0).2.1 (Or.inl rfl)

/-- Counterexample to C1 as stated: fill_super_callback with a null data
pointer does not return InvalidArgument; the null is silently replaced by
the empty string and the plugin runs, its distinctive error code -99
surfacing to the host. -/
theorem c1_counterexample :
    fill_super_callback fsProbe 5 0 0 = -99 ∧
      (-99 : Int) ≠ Error.EINVAL.to_kernel_errno ∧
      fill_super_invoked 5 = true := by
  refine ⟨rfl, by decide, rfl⟩

/-- C2 (code evaluation): the inode operation table builder installs the
absent marker in every slot and ignores capability selection: even though
the inode capability set can select create, the built inode table has a null
create slot (and every other slot null) for every plugin.  This contradicts
the claimed exactly-the-selected-slots property for the inode table kind. -/
theorem c2_inode_table_ignores_selection :
    ({ inode.USE_NONE with create := true } : inode.ToUse).create = true ∧
    InodeOperationsVtable inodeOpsStub =
      { lookup := none, get_link := none, permission := none, get_acl := none,
        readlink := none, create := none, link := none, unlink := none,
        symlink := none, mkdir := none, rmdir := none, mknod := none,
        rename := none, setattr := none, getattr := none, listxattr := none,
        fiemap := none, update_time := none, atomic_open := none,
        tmpfile := none, set_acl := none, fileattr_set := none,
        fileattr_get := none } :=
  ⟨rfl, rfl⟩

/-- C3: for every integer-status trampoline, when every raw handle wraps
successfully the trampoline returns the host translation of the plugin
result: the success sentinel 0 on Ok, and the error host code on Err. -/
theorem c3_status_translation
    (Ti : inode.InodeOperations) (Ts : super_block.SuperBlockOperations)
    (Tf : FileSystem) (p q r s t da sym : Ptr) (m : UMode) (rd : DevType)
    (fl rq qf : Nat) (ex : Bool) (sil : Int)
    (hp : p ≠ 0) (hq : q ≠ 0) (hr : r ≠ 0) (hs : s ≠ 0) (ht : t ≠ 0) :
    hostResult (Except.ok ()) = 0 ∧
    (∀ e : Error, hostResult (Except.error e) = e.to_kernel_errno) ∧
    inode.create Ti p q r m ex = hostResult (Ti.create ⟨p⟩ ⟨q⟩ ⟨r⟩ m ex) ∧
    inode.link Ti p q r = hostResult (Ti.link ⟨p⟩ ⟨q⟩ ⟨r⟩) ∧
    inode.unlink Ti p q = hostResult (Ti.unlink ⟨p⟩ ⟨q⟩) ∧
    inode.symlink Ti p q r sym =
      hostResult (Ti.symlink ⟨p⟩ ⟨q⟩ ⟨r⟩ (CStr.fromPtr sym)) ∧
    inode.mkdir Ti p q r m = hostResult (Ti.mkdir ⟨p⟩ ⟨q⟩ ⟨r⟩ m) ∧
    inode.rmdir Ti p q = hostResult (Ti.rmdir ⟨p⟩ ⟨q⟩) ∧
    inode.mknod Ti p q r m rd = hostResult (Ti.mknod ⟨p⟩ ⟨q⟩ ⟨r⟩ m rd) ∧
    inode.rename Ti p q r s t fl =
      hostResult (Ti.rename ⟨p⟩ ⟨q⟩ ⟨r⟩ ⟨s⟩ ⟨t⟩ fl) ∧
    inode.setattr Ti p q r = hostResult (Ti.setattr ⟨p⟩ ⟨q⟩ ⟨r⟩) ∧
    inode.getattr Ti p q r rq qf =
      hostResult (Ti.getattr ⟨p⟩ ⟨q⟩ ⟨r⟩ rq qf) ∧
    fill_super_callback Tf p da sil =
      hostResult (Tf.fill_super ⟨p⟩
        (if da = 0 then CStr.empty else CStr.fromPtr da) sil) ∧
    super_block.statfs_callback Ts p q = hostResult (Ts.statfs ⟨p⟩ ⟨q⟩) ∧
    super_block.show_options_callback Ts p q =
      hostResult (Ts.show_options ⟨p⟩ ⟨q⟩) := by
  refine ⟨rfl, fun e => rfl, ?_, ?_, ?_, ?_, ?_, ?_, ?_, ?_, ?_, ?_, ?_, ?_, ?_⟩
  · rw [create_eq]
    simp [hp, hq, hr]
  · rw [link_eq]
    simp [hp, hq, hr]
  · rw [unlink_eq]
    simp [hp, hq]
  · rw [symlink_eq]
    simp [hp, hq, hr]
  · rw [mkdir_eq]
    simp [hp, hq, hr]
  · rw [rmdir_eq]
    simp [hp, hq]
  · rw [mknod_eq]
    simp [hp, hq, hr]
  · rw [rename_eq]
    simp [hp, hq, hr, hs, ht]
  · rw [setattr_eq]
    simp [hp, hq, hr]
  · rw [getattr_eq]
    simp [hp, hq, hr]
  · rw [fill_super_eq]
    simp [hp]
  · rw [statfs_eq]
    simp [hp, hq]
  · rw [show_options_eq]
    simp [hp, hq]

/-- Witness for C3: at non-null handles, the create trampoline result is the
host translation of the default plugin result. -/
theorem c3_witness :
    inode.create inodeOpsStub 1 2 3 0 false =
      hostResult (inodeOpsStub.create ⟨1⟩ ⟨2⟩ ⟨3⟩ 0 false) :=
  (c3_status_translation inodeOpsStub sbOpsStub fsStub 1 2 3 4 5 0 0 0 0 0 0 0
    false 0 (by decide) (by decide) (by decide) (by decide) (by decide)).2.2.1

/-- C4: registering a fresh name succeeds and publishes it; unregistering
the same handle succeeds once, leaves the name absent from the host
registry, and fails deterministically with InvalidArgument the second
time. -/
theorem c4_unregister_twice (r : Registry) (name : String) (owner : Nat)
    (fh : file_system_type) (hname : name ∉ r.names)
    (hreg : (register_self r name owner).2 = .ok fh) :
    (register_self r name owner).1.names = name :: r.names ∧
    (unregister_self (register_self r name owner).1 fh).2 = .ok () ∧
    name ∉ (unregister_self (register_self r name owner).1 fh).1.names ∧
    (unregister_self
        (unregister_self (register_self r name owner).1 fh).1 fh).2 =
      .error Error.EINVAL := by
  have hfh : fh.name = name := by
    simp [register_self, register_filesystem, hname] at hreg
    rw [← hreg]
  have hstep : (register_self r name owner).1 = ⟨name :: r.names⟩ := by
    simp [register_self, register_filesystem, hname]
  rw [hstep]
  have hun : unregister_self ⟨name :: r.names⟩ fh = (⟨r.names⟩, .ok ()) := by
    simp [unregister_self, unregister_filesystem, hfh]
  rw [hun]
  refine ⟨rfl, rfl, hname, ?_⟩
  simp [unregister_self, unregister_filesystem, hfh, hname,
    Error.from_kernel_errno, Error.EINVAL]

/-- Witness for C4: from the empty registry, the second unregister of the
rust_ramfs handle fails with InvalidArgument. -/
theorem c4_witness :
    (unregister_self
        (unregister_self (register_self ⟨[]⟩ "rust_ramfs" 7).1
          { mount := some .mount_cb, kill_sb := some .kill_sb_cb, owner := 7,
            name := "rust_ramfs" }).1
        { mount := some .mount_cb, kill_sb := some .kill_sb_cb, owner := 7,
          name := "rust_ramfs" }).2 = .error Error.EINVAL :=
  (c4_unregister_twice ⟨[]⟩ "rust_ramfs" 7
    { mount := some .mount_cb, kill_sb := some .kill_sb_cb, owner := 7,
      name := "rust_ramfs" }
    (by simp) (by rfl)).2.2.2

/-- C5 (amended): on non-null handles, the boolean trampolines return
exactly the C integer cast of the plugin boolean, with no error translation;
on a null handle the plugin is not invoked, drop_inode_callback returns the
InvalidArgument errno and d_delete_callback returns 1. -/
theorem c5_boolean_encoding (Ts : super_block.SuperBlockOperations)
    (Td : dentry.DentryOperations) (p : Ptr) (hp : p ≠ 0) :
    super_block.drop_inode_callback Ts p = bool_to_cint (Ts.drop_inode ⟨p⟩) ∧
    dentry.d_delete_callback Td p = bool_to_cint (Td.d_delete ⟨p⟩) ∧
    bool_to_cint true = 1 ∧ bool_to_cint false = 0 ∧
    super_block.drop_inode_callback Ts 0 = Error.EINVAL.to_kernel_errno ∧
    super_block.drop_inode_invoked 0 = false ∧
    dentry.d_delete_callback Td 0 = 1 ∧
    dentry.d_delete_invoked 0 = false := by
  refine ⟨?_, ?_, rfl, rfl, rfl, rfl, rfl, rfl⟩
  · rw [drop_inode_eq]
    simp [hp]
  · rw [d_delete_eq]
    simp [hp]

/-- Witness for C5: at the non-null inode 3 the drop_inode trampoline
returns the cast of the plugin boolean. -/
theorem c5_witness :
    super_block.drop_inode_callback sbOpsStub 3 =
      bool_to_cint (sbOpsStub.drop_inode ⟨3⟩) :=
  (c5_boolean_encoding sbOpsStub dOpsStub 3 (by decide)).1

/-- Counterexample to C5 as stated: calling the drop_inode trampoline with a
null inode yields the translated InvalidArgument code -22, which is neither
boolean encoding, and the plugin is never consulted. -/
theorem c5_counterexample :
    super_block.drop_inode_callback sbOpsStub 0 = Error.EINVAL.to_kernel_errno ∧
      Error.EINVAL.to_kernel_errno ≠ (1 : Int) ∧
      Error.EINVAL.to_kernel_errno ≠ (0 : Int) ∧
      super_block.drop_inode_invoked 0 = false := by
  refine ⟨rfl, by decide, by decide, rfl⟩

/-- C6: the notification-only trampolines (inode destruction, inode
eviction, superblock teardown, and also inode freeing) return nothing to the
host for every plugin and every pointer, valid or not — no error code ever
propagates — and they reach the plugin exactly when the handle wrap
succeeds. -/
theorem c6_notification_only (Ts : super_block.SuperBlockOperations)
    (Tf : FileSystem) (p : Ptr) :
    super_block.destroy_inode_callback Ts p = () ∧
    super_block.free_inode_callback Ts p = () ∧
    super_block.evict_inode_callback Ts p = () ∧
    kill_sb_callback Tf p = () ∧
    (super_block.destroy_inode_invoked p = true ↔ p ≠ 0) ∧
    (super_block.evict_inode_invoked p = true ↔ p ≠ 0) ∧
    (kill_sb_invoked p = true ↔ p ≠ 0) := by
  refine ⟨rfl, rfl, rfl, rfl, ?_, ?_, ?_⟩
  · rw [destroy_inode_invoked_eq]
    simp
  · rw [evict_inode_invoked_eq]
    simp
  · rw [kill_sb_invoked_eq]
    simp

/-- C7: for every handle kind, wrapping a non-null pointer succeeds with a
handle whose unwrap returns exactly that pointer, and wrapping the null
pointer fails with InvalidArgument. -/
theorem c7_wrap_unwrap (p : Ptr) (hp : p ≠ 0) :
    (Inode.from_c_inode p = .ok ⟨p⟩ ∧ Inode.to_c_inode ⟨p⟩ = p ∧
      Inode.from_c_inode 0 = .error Error.EINVAL) ∧
    (Dentry.from_c_dentry p = .ok ⟨p⟩ ∧ Dentry.to_c_dentry ⟨p⟩ = p ∧
      Dentry.from_c_dentry 0 = .error Error.EINVAL) ∧
    (SuperBlock.from_c_super_block p = .ok ⟨p⟩ ∧
      SuperBlock.to_c_super_block ⟨p⟩ = p ∧
      SuperBlock.from_c_super_block 0 = .error Error.EINVAL) ∧
    (SeqFile.from_c_seq_file p = .ok ⟨p⟩ ∧ SeqFile.to_c_seq_file ⟨p⟩ = p ∧
      SeqFile.from_c_seq_file 0 = .error Error.EINVAL) ∧
    (KStatFs.from_c_kstatfs p = .ok ⟨p⟩ ∧ KStatFs.to_c_kstatfs ⟨p⟩ = p ∧
      KStatFs.from_c_kstatfs 0 = .error Error.EINVAL) ∧
    (UserNameSpace.from_c_user_namespace p = .ok ⟨p⟩ ∧
      UserNameSpace.to_c_user_namespace ⟨p⟩ = p ∧
      UserNameSpace.from_c_user_namespace 0 = .error Error.EINVAL) ∧
    (FSType.from_c_fs_type p = .ok ⟨p⟩ ∧ FSType.to_c_fs_type ⟨p⟩ = p ∧
      FSType.from_c_fs_type 0 = .error Error.EINVAL) := by
  refine ⟨⟨?_, rfl, rfl⟩, ⟨?_, rfl, rfl⟩, ⟨?_, rfl, rfl⟩, ⟨?_, rfl, rfl⟩,
    ⟨?_, rfl, rfl⟩, ⟨?_, rfl, rfl⟩, ⟨?_, rfl, rfl⟩⟩
  · simp [Inode.from_c_inode, hp]
  · simp [Dentry.from_c_dentry, hp]
  · simp [SuperBlock.from_c_super_block, hp]
  · simp [SeqFile.from_c_seq_file, hp]
  · simp [KStatFs.from_c_kstatfs, hp]
  · simp [UserNameSpace.from_c_user_namespace, hp]
  · simp [FSType.from_c_fs_type, hp]

/-- Witness for C7: wrapping the non-null inode pointer 5 succeeds with a
handle carrying exactly 5. -/
theorem c7_witness :
    Inode.from_c_inode 5 = .ok ⟨5⟩ ∧ Inode.to_c_inode ⟨5⟩ = 5 ∧
      Inode.from_c_inode 0 = .error Error.EINVAL :=
  (c7_wrap_unwrap 5 (by decide)).1

/-- C8: every unoverridden fallible plugin method defaults to Err(EINVAL),
the framework outcome surfacing an unimplemented operation, so a plugin
overrides only what it needs; the boolean and notification methods default
to the fixed behaviors drop_inode true, d_delete false and no-op
notifications. -/
theorem c8_default_methods (u : UserNameSpace) (i i2 : Inode) (d d2 : Dentry)
    (sb : SuperBlock) (sq : SeqFile) (k : KStatFs) (ia : IAttr) (pa : Path)
    (ks : KStat) (ft : FSType) (cs cs2 : CStr) (m : UMode) (rd : DevType)
    (fl rq qf : Nat) (ex : Bool) (sil fg : Int) :
    inodeOpsStub.lookup i d fl = .error Error.EINVAL ∧
    inodeOpsStub.create u i d m ex = .error Error.EINVAL ∧
    inodeOpsStub.link d i d2 = .error Error.EINVAL ∧
    inodeOpsStub.unlink i d = .error Error.EINVAL ∧
    inodeOpsStub.symlink u i d cs = .error Error.EINVAL ∧
    inodeOpsStub.mkdir u i d m = .error Error.EINVAL ∧
    inodeOpsStub.rmdir i d = .error Error.EINVAL ∧
    inodeOpsStub.mknod u i d m rd = .error Error.EINVAL ∧
    inodeOpsStub.rename u i d i2 d2 fl = .error Error.EINVAL ∧
    inodeOpsStub.setattr u d ia = .error Error.EINVAL ∧
    inodeOpsStub.getattr u pa ks rq qf = .error Error.EINVAL ∧
    fsStub.mount ft fg cs cs2 = .error Error.EINVAL ∧
    fsStub.fill_super sb cs sil = .error Error.EINVAL ∧
    fsStub.kill_sb sb = () ∧
    sbOpsStub.statfs d k = .error Error.EINVAL ∧
    sbOpsStub.show_options sq d = .error Error.EINVAL ∧
    sbOpsStub.drop_inode i = true ∧
    sbOpsStub.destroy_inode i = () ∧
    sbOpsStub.free_inode i = () ∧
    sbOpsStub.evict_inode i = () ∧
    dOpsStub.d_delete d = false :=
  ⟨rfl, rfl, rfl, rfl, rfl, rfl, rfl, rfl, rfl, rfl, rfl, rfl, rfl, rfl, rfl,
    rfl, rfl, rfl, rfl, rfl, rfl⟩

/-- C9: the error mapping is total in both directions over the fixed kind
enumeration; mapping a kind to its host code and back yields a kind the host
treats identically (same host code, many-to-one allowed), every unmapped
host code collapses to the one unknown kind, and the unknown kind itself
carries the generic invalid-argument host code. -/
theorem c9_error_mapping :
    (∀ k : ErrorKind,
      (ErrorKind.fromHostCode k.toHostCode).toHostCode = k.toHostCode) ∧
    ErrorKind.EUNKNOWN.toHostCode = Error.EINVAL.to_kernel_errno ∧
    (∀ n : Int, n ∉ knownHostCodes → ErrorKind.fromHostCode n = .EUNKNOWN) ∧
    ErrorKind.fromHostCode ErrorKind.EUNKNOWN.toHostCode = .EINVAL := by
  refine ⟨fun k => by cases k <;> rfl, rfl, ?_, rfl⟩
  intro n hn
  simp [knownHostCodes] at hn
  obtain ⟨h1, h2, h3, h4, h5, h6, h7, h8, h9⟩ := hn
  simp [ErrorKind.fromHostCode, h1, h2, h3, h4, h5, h6, h7, h8, h9]

/-- Witness for C9: the unmapped host code -7777 maps to the unknown kind. -/
theorem c9_witness : ErrorKind.fromHostCode (-7777) = .EUNKNOWN :=
  c9_error_mapping.2.2.1 (-7777) (by decide)

/-- C10: every handle kind has a public default constructor whose unwrap
returns the null pointer, even though the wrapping path rejects null: the
never-null invariant holds only for wrapped handles. -/
theorem c10_default_null_wrappers :
    Inode.default.to_c_inode = 0 ∧
    Dentry.default.to_c_dentry = 0 ∧
    SuperBlock.default.to_c_super_block = 0 ∧
    SeqFile.default.to_c_seq_file = 0 ∧
    KStatFs.default.to_c_kstatfs = 0 ∧
    UserNameSpace.default.to_c_user_namespace = 0 ∧
    FSType.default.to_c_fs_type = 0 ∧
    Inode.from_c_inode 0 = .error Error.EINVAL ∧
    Dentry.from_c_dentry 0 = .error Error.EINVAL ∧
    SuperBlock.from_c_super_block 0 = .error Error.EINVAL ∧
    SeqFile.from_c_seq_file 0 = .error Error.EINVAL ∧
    KStatFs.from_c_kstatfs 0 = .error Error.EINVAL ∧
    UserNameSpace.from_c_user_namespace 0 = .error Error.EINVAL ∧
    FSType.from_c_fs_type 0 = .error Error.EINVAL :=
  ⟨rfl, rfl, rfl, rfl, rfl, rfl, rfl, rfl, rfl, rfl, rfl, rfl, rfl, rfl⟩

end LinuxFs
